import Mathlib

/-!
Shallow embedding of the tapvolt-app Connection Engine
(`src/services/connectionManager.ts`, `src/utils/mapServerError.ts`,
`src/types/protocol.ts`) in Lean 4, with theorems settling the frozen
claims about the connection state machine, reconnect scheduler,
heartbeat monitor, action dispatcher and error mapping.

Conventions of the embedding:
* JavaScript numbers that only ever hold integers (timestamps, counters,
  delays, lengths) are `Nat`/`Int`; the `duration` field of a delay step,
  which the validator classifies with `Number.isFinite`, is a dedicated
  `JSNum` type distinguishing finite values from `Infinity`/`NaN`.
* The stateful `ConnectionManager` class becomes a state record `CMState`
  plus explicit state-passing functions returning `CMState × List Event`,
  where `Event` records observer callbacks and transport effects in the
  order the source performs them.
* The `SocketService` transport collaborator is not part of the sources;
  per the spec (§4.A) its `send` returns a boolean "was the channel
  open", which we model with a `socketOpen : Bool` field.
-/

namespace Tapvolt

/-- JS numeric value as classified by the validator: a finite value
(modelled as `Int`, since only integral bounds are compared) or one of
the non-finite values `Infinity`, `-Infinity`, `NaN`. -/
inductive JSNum where
  | finite (v : Int)
  | infinity
  | negInfinity
  | nan
  deriving DecidableEq, Repr

/-- `Number.isFinite` on a `JSNum`. -/
def JSNum.isFinite : JSNum → Bool
  | .finite _ => true
  | _ => false

/-- `x < 0` on a `JSNum` (JS comparison: false for NaN, false for
`Infinity`, true for `-Infinity`). -/
def JSNum.isNeg : JSNum → Bool
  | .finite v => v < 0
  | .infinity => false
  | .negInfinity => true
  | .nan => false

/-- `Step` from `src/types/protocol.ts`: tagged variant of the five
step kinds. -/
inductive Step where
  | shortcut (keys : List String)
  | text (value : String)
  | delay (duration : JSNum)
  | key (k : String)
  | command (c : String)
  deriving DecidableEq, Repr

/-- `ConnectionState` enum from `connectionManager.ts`. -/
inductive ConnectionState where
  | CONNECTING
  | CONNECTED
  | RECONNECTING
  | DISCONNECTED
  | ERROR
  deriving DecidableEq, Repr

/-- The string value of each `ConnectionState` enum member. -/
def ConnectionState.name : ConnectionState → String
  | .CONNECTING => "CONNECTING"
  | .CONNECTED => "CONNECTED"
  | .RECONNECTING => "RECONNECTING"
  | .DISCONNECTED => "DISCONNECTED"
  | .ERROR => "ERROR"

/-- `ConnectionErrorPayload`: `{ code, message }`. -/
structure ConnectionErrorPayload where
  code : String
  message : String
  deriving DecidableEq, Repr

/-- `ExecutionResult`: normalized inbound action result. -/
structure ExecutionResult where
  id : String
  status : String
  executionTime : Int
  error : Option String
  deriving DecidableEq, Repr

/-! ### JS string primitives

The JS string methods the engine uses (`trim`, `toUpperCase`,
`toLowerCase`, `startsWith`), defined by structural recursion over the
character list so that every use evaluates by kernel reduction. -/

/-- JS `String.prototype.trim`: strip whitespace from both ends. -/
def jsTrim (s : String) : String :=
  String.mk (((s.data.dropWhile Char.isWhitespace).reverse.dropWhile
    Char.isWhitespace).reverse)

/-- JS `String.prototype.toUpperCase` (ASCII-relevant part). -/
def jsToUpper (s : String) : String :=
  String.mk (s.data.map Char.toUpper)

/-- JS `String.prototype.toLowerCase` (ASCII-relevant part). -/
def jsToLower (s : String) : String :=
  String.mk (s.data.map Char.toLower)

/-- JS `String.prototype.startsWith`. -/
def jsStartsWith (s prefixStr : String) : Bool :=
  prefixStr.data.isPrefixOf s.data

/-- JS `String.prototype.length` (code units; code points for the ASCII
strings involved). -/
def jsLength (s : String) : Nat :=
  s.data.length

/-! ### mapServerError (`src/utils/mapServerError.ts`) -/

/-- `FALLBACK_MESSAGE` constant. -/
def FALLBACK_MESSAGE : String := "Unexpected desktop error."

/-- The `SERVER_ERROR_MESSAGES` record lookup: the four known codes map
to their fixed user-facing messages, everything else misses. -/
def serverErrorMessageTable (c : String) : Option String :=
  if c = "MAX_STEPS_EXCEEDED" then some "This macro is too large."
  else if c = "MAX_TEXT_LENGTH_EXCEEDED" then some "Text input exceeds allowed size."
  else if c = "COMMAND_EXECUTION_DISABLED" then
    some "Terminal commands are disabled on the desktop."
  else if c = "DEVICE_NOT_AUTHORIZED" then
    some "This device is not authorized. Please re-pair."
  else none

/-- `mapServerError(code)`: trim and uppercase, look up the message
table with the fallback message, and keep the normalized code itself
unless it is empty, in which case the code is `UNKNOWN_SERVER_ERROR`. -/
def mapServerError (code : String) : ConnectionErrorPayload :=
  let normalizedCode := jsToUpper (jsTrim code)
  let message := (serverErrorMessageTable normalizedCode).getD FALLBACK_MESSAGE
  { code := if jsLength normalizedCode > 0 then normalizedCode else "UNKNOWN_SERVER_ERROR",
    message := message }

/-! ### Engine configuration constants -/

def MAX_RECONNECT_ATTEMPTS : Nat := 10
def MAX_RECONNECT_DELAY_MS : Nat := 10000
def HEARTBEAT_TIMEOUT_MS : Int := 15000
def ACTION_TIMEOUT_MS : Int := 8000
def MAX_ACTION_STEPS : Nat := 50
def MAX_TEXT_STEP_LENGTH : Nat := 1000

/-! ### Validator (`validateStep`, `validateExecuteActionPayload`,
`validateLocalActionConstraints`) -/

/-- `validateStep(step, index)` on a typed `Step`. The dynamic `typeof`
checks of the source hold by construction on the typed variant; the
remaining checks are the non-empty `keys` list for `shortcut` and the
finite, non-negative `duration` for `delay`. -/
def validateStep (step : Step) (index : Nat) : Option String :=
  match step with
  | .shortcut keys =>
      if keys.length = 0 then
        some ("Step " ++ toString index ++ " (shortcut) must include non-empty \"keys\" array.")
      else none
  | .text _ => none
  | .delay duration =>
      if !duration.isFinite || duration.isNeg then
        some ("Step " ++ toString index
          ++ " (delay) must include non-negative numeric field \"duration\".")
      else none
  | .key _ => none
  | .command _ => none

/-- The per-step loop of `validateExecuteActionPayload`, returning the
first step error. -/
def validateStepsFrom (steps : List Step) (index : Nat) : Option String :=
  match steps with
  | [] => none
  | s :: rest =>
      match validateStep s index with
      | some e => some e
      | none => validateStepsFrom rest (index + 1)

/-- `validateExecuteActionPayload({id, steps})` on the typed payload. -/
def validateExecuteActionPayload (id : String) (steps : List Step) : Option String :=
  if jsLength (jsTrim id) = 0 then
    some "Payload must include non-empty string field \"id\"."
  else if steps.length = 0 then
    some "Payload must include non-empty \"steps\" array."
  else validateStepsFrom steps 0

/-- The text-length scan of `validateLocalActionConstraints`: first
`text` step whose value exceeds `MAX_TEXT_STEP_LENGTH`. -/
def findOversizedText (steps : List Step) : Option ConnectionErrorPayload :=
  match steps with
  | [] => none
  | .text v :: rest =>
      if jsLength v > MAX_TEXT_STEP_LENGTH then some (mapServerError "MAX_TEXT_LENGTH_EXCEEDED")
      else findOversizedText rest
  | _ :: rest => findOversizedText rest

/-- `validateLocalActionConstraints(steps)`. -/
def validateLocalActionConstraints (steps : List Step) : Option ConnectionErrorPayload :=
  if steps.length > MAX_ACTION_STEPS then some (mapServerError "MAX_STEPS_EXCEEDED")
  else findOversizedText steps

/-! ### URL normalization -/

/-- `toWsUrl(raw)`. -/
def toWsUrl (raw : String) : String :=
  let trimmed := jsTrim raw
  if jsStartsWith trimmed "ws://" || jsStartsWith trimmed "wss://" then trimmed
  else "ws://" ++ trimmed

/-- `buildActionTimeoutResult(actionId)`. -/
def buildActionTimeoutResult (actionId : String) : ExecutionResult :=
  { id := actionId, status := "error", executionTime := ACTION_TIMEOUT_MS,
    error := some "Action timed out after 8 seconds." }

/-! ### State-transition guard -/

/-- `isValidStateTransition(current, next)`. -/
def isValidStateTransition (current next : ConnectionState) : Bool :=
  if current = next then true
  else
    match current with
    | .DISCONNECTED => next = .CONNECTING || next = .ERROR
    | .CONNECTING =>
        next = .CONNECTED || next = .RECONNECTING || next = .DISCONNECTED || next = .ERROR
    | .CONNECTED => next = .RECONNECTING || next = .DISCONNECTED || next = .ERROR
    | .RECONNECTING =>
        next = .RECONNECTING || next = .CONNECTED || next = .DISCONNECTED || next = .ERROR
    | .ERROR => next = .CONNECTING || next = .RECONNECTING || next = .DISCONNECTED

/-! ### Engine state and events -/

/-- Observable effects of the engine, in the order the source performs
them: observer callbacks plus transport and timer effects. -/
inductive Event where
  | onError (payload : ConnectionErrorPayload)
  | onStateChange (state : ConnectionState) (reconnectAttempt : Nat)
  | onConnected
  | onDisconnected
  | onAuthSuccess
  | onAuthFailure
  | onActionResult (result : ExecutionResult)
  | onActionTimeout (actionId : String)
  | onWarning (message : Option String)
  | onHeartbeat (timestamp : Int)
  | socketConnect (url : String)
  | socketClose (code : Option Nat) (reason : Option String)
  | sendFrame
  | armReconnectTimer (delayMs : Nat)
  deriving DecidableEq, Repr

/-- The mutable fields of `ConnectionManager`. Timer handles are
modelled by what they carry: `reconnectTimer` stores the armed delay,
`heartbeatTimer` whether the interval is live, and each pending action
id stands for its live 8-second timeout handle.

Modelled from the spec: the `SocketService` transport collaborator is
absent from the sources; per §4.A its `send` returns false exactly when
the channel is not open, which `socketOpen` captures. -/
structure CMState where
  state : ConnectionState := .DISCONNECTED
  reconnectAttempt : Nat := 0
  reconnectTimer : Option Nat := none
  heartbeatTimer : Bool := false
  lastHeartbeat : Option Int := none
  pendingActions : List String := []
  completedActionIds : List String := []
  completedActionOrder : List String := []
  targetUrl : Option String := none
  reconnectSuspended : Bool := false
  actionNonce : Nat := 0
  socketOpen : Bool := false
  deriving DecidableEq, Repr

/-- `emitError` on a string argument: wrap as a `CLIENT_ERROR`. -/
def clientError (message : String) : ConnectionErrorPayload :=
  { code := "CLIENT_ERROR", message := message }

/-- `setState(next)`: guarded by `isValidStateTransition`; a rejected
transition leaves the state untouched and emits a `CLIENT_ERROR`;
an accepted one stores the state and notifies `onStateChange` with the
current reconnect attempt. -/
def setState (s : CMState) (next : ConnectionState) : CMState × List Event :=
  if isValidStateTransition s.state next then
    ({ s with state := next }, [.onStateChange next s.reconnectAttempt])
  else
    (s, [.onError (clientError
      ("Illegal state transition: " ++ s.state.name ++ " -> " ++ next.name))])

/-- `clearReconnectTimer()`. -/
def clearReconnectTimer (s : CMState) : CMState :=
  { s with reconnectTimer := none }

/-- `clearHeartbeatTimer()`. -/
def clearHeartbeatTimer (s : CMState) : CMState :=
  { s with heartbeatTimer := false }

/-- `clearPendingActions()`: cancels every pending timer and clears the
map. -/
def clearPendingActions (s : CMState) : CMState :=
  { s with pendingActions := [] }

/-- `removePendingAction(actionId)`: true iff a pending entry existed,
in which case its timer is cancelled and the entry removed. -/
def removePendingAction (s : CMState) (actionId : String) : Bool × CMState :=
  if s.pendingActions.contains actionId then
    (true, { s with pendingActions := s.pendingActions.filter (· ≠ actionId) })
  else (false, s)

/-- `markActionCompleted(actionId)`: add to the membership set, push
onto the FIFO order, and once the order exceeds 500 evict the oldest
from both. -/
def markActionCompleted (s : CMState) (actionId : String) : CMState :=
  let ids := if s.completedActionIds.contains actionId then s.completedActionIds
             else actionId :: s.completedActionIds
  let order := s.completedActionOrder ++ [actionId]
  if order.length ≤ 500 then
    { s with completedActionIds := ids, completedActionOrder := order }
  else
    match order with
    | [] => { s with completedActionIds := ids, completedActionOrder := order }
    | oldest :: rest =>
        { s with completedActionIds := ids.filter (· ≠ oldest),
                 completedActionOrder := rest }

/-- `scheduleReconnect()`: bail to `DISCONNECTED` without a target URL
or when suspended; at the attempt cap emit the exhaustion error and go
to `ERROR`; otherwise increment the attempt, compute the capped
exponential delay, transition to `RECONNECTING` and arm the single-shot
reconnect timer. -/
def scheduleReconnect (s : CMState) : CMState × List Event :=
  if s.targetUrl = none || s.reconnectSuspended then
    setState s .DISCONNECTED
  else if s.reconnectAttempt ≥ MAX_RECONNECT_ATTEMPTS then
    let (s1, evs) := setState s .ERROR
    (s1, .onError (clientError "Reconnect failed after 10 attempts.") :: evs)
  else
    let s1 := { s with reconnectAttempt := s.reconnectAttempt + 1 }
    let delay := min (1000 * 2 ^ (s1.reconnectAttempt - 1)) MAX_RECONNECT_DELAY_MS
    let (s2, evs) := setState s1 .RECONNECTING
    let s3 := { clearReconnectTimer s2 with reconnectTimer := some delay }
    (s3, evs ++ [.armReconnectTimer delay])

/-- The body of the heartbeat interval callback in
`startHeartbeatTimer()`, at wall-clock `now`: when liveness is stale by
more than 15000 ms, emit the staleness error, disarm the interval,
close the transport with code 4000 / reason "Heartbeat timeout", and
invoke the reconnect scheduler. -/
def heartbeatTick (s : CMState) (now : Int) : CMState × List Event :=
  match s.lastHeartbeat with
  | none => (s, [])
  | some lastHeartbeat =>
      if now - lastHeartbeat > HEARTBEAT_TIMEOUT_MS then
        let s1 := clearHeartbeatTimer s
        let (s2, evs) := scheduleReconnect s1
        (s2, .onError (clientError "Heartbeat timeout. Reconnecting.")
              :: .socketClose (some 4000) (some "Heartbeat timeout") :: evs)
      else (s, [])

/-- `openSocket(nextState)`. -/
def openSocket (s : CMState) (nextState : ConnectionState) : CMState × List Event :=
  match s.targetUrl with
  | none =>
      let (s1, evs) := setState s .ERROR
      (s1, .onError (clientError "Missing target WebSocket URL.") :: evs)
  | some url =>
      let (s1, evs) := setState s nextState
      (s1, evs ++ [.socketConnect url])

/-- `connect(rawUrl)`: empty after trim emits the input error and goes
to `ERROR`; otherwise record the normalized target, reset the attempt
counter, clear suspension, cancel the reconnect timer, clear pending
actions and open the socket in `CONNECTING`. -/
def connect (s : CMState) (rawUrl : String) : CMState × List Event :=
  let trimmed := jsTrim rawUrl
  if jsLength trimmed = 0 then
    let (s1, evs) := setState s .ERROR
    (s1, .onError (clientError "IP address is required.") :: evs)
  else
    let s1 := { s with targetUrl := some (toWsUrl trimmed), reconnectAttempt := 0,
                       reconnectSuspended := false }
    let s2 := clearPendingActions (clearReconnectTimer s1)
    openSocket s2 .CONNECTING

/-- `disconnect()`: suspend reconnects, cancel all timers and pending
actions, forget the target URL, close the transport and force
`DISCONNECTED`. -/
def disconnect (s : CMState) : CMState × List Event :=
  let s1 := { s with reconnectSuspended := true }
  let s2 := clearPendingActions (clearHeartbeatTimer (clearReconnectTimer s1))
  let s3 := { s2 with targetUrl := none, socketOpen := false }
  let (s4, evs) := setState s3 .DISCONNECTED
  (s4, .socketClose none none :: evs)

/-- `handleSocketDisconnected()`: notify, stop the heartbeat monitor
and either settle in `DISCONNECTED` (when suspended) or hand off to the
reconnect scheduler. The transport is closed at this point, so the
modelled channel flag drops. -/
def handleSocketDisconnected (s : CMState) : CMState × List Event :=
  let s1 := clearHeartbeatTimer { s with socketOpen := false }
  if s1.reconnectSuspended then
    let (s2, evs) := setState s1 .DISCONNECTED
    (s2, .onDisconnected :: evs)
  else
    let (s2, evs) := scheduleReconnect s1
    (s2, .onDisconnected :: evs)

/-- `buildActionId()`: increment the monotonic nonce and mint
`<epochMillis>-<nonce>`. -/
def buildActionId (s : CMState) (now : Int) : String × CMState :=
  let nonce := s.actionNonce + 1
  (toString now ++ "-" ++ toString nonce, { s with actionNonce := nonce })

/-- The `EXECUTE_ACTION` branch of `send(message)`: re-run both
validator passes, then attempt the transport send, emitting the
not-connected error when the channel is closed. Returns whether the
frame was sent. -/
def sendExecuteAction (s : CMState) (id : String) (steps : List Step) :
    Bool × CMState × List Event :=
  match validateLocalActionConstraints steps with
  | some err => (false, s, [.onError err])
  | none =>
      match validateExecuteActionPayload id steps with
      | some verr =>
          (false, s, [.onError (clientError ("Invalid EXECUTE_ACTION payload: " ++ verr))])
      | none =>
          if s.socketOpen then (true, s, [.sendFrame])
          else (false, s, [.onError (clientError "WebSocket is not connected.")])

/-- `sendAction(action)` at wall-clock `now`: mint the id, validate the
single-step list, emit the command warning or clear it, validate the
payload shape, send, and on success arm the 8 s timeout and insert the
pending entry. Returns the minted id or `null`. -/
def sendAction (s : CMState) (now : Int) (action : Step) :
    Option String × CMState × List Event :=
  let (actionId, s1) := buildActionId s now
  let steps := [action]
  match validateLocalActionConstraints steps with
  | some err => (none, s1, [.onError err])
  | none =>
      let warnEvs := match action with
        | .command _ => [Event.onWarning (some "Command execution may be disabled on desktop.")]
        | _ => [Event.onWarning none]
      match validateExecuteActionPayload actionId steps with
      | some verr =>
          (none, s1,
            warnEvs ++ [.onError (clientError ("Invalid EXECUTE_ACTION payload: " ++ verr))])
      | none =>
          let (sent, s2, sendEvs) := sendExecuteAction s1 actionId steps
          if sent then
            let pending :=
              if s2.pendingActions.contains actionId then s2.pendingActions
              else s2.pendingActions ++ [actionId]
            (some actionId, { s2 with pendingActions := pending }, warnEvs ++ sendEvs)
          else (none, s2, warnEvs ++ sendEvs)

/-- The 8-second timeout callback armed by `sendAction`: a no-op when
the pending entry is already gone; otherwise remove it, record the id
as completed, and deliver the timeout, the synthetic error result and
the `CLIENT_ERROR`. -/
def actionTimeoutFire (s : CMState) (actionId : String) : CMState × List Event :=
  let (cleared, s1) := removePendingAction s actionId
  if !cleared then (s, [])
  else
    let s2 := markActionCompleted s1 actionId
    (s2, [.onActionTimeout actionId,
          .onActionResult (buildActionTimeoutResult actionId),
          .onError (clientError ("Action " ++ actionId ++ " timed out after 8 seconds."))])

/-- The `ACTION_RESULT` branch of `handleSocketMessage` after payload
extraction: drop silently when the id is in the completed window;
otherwise clear the pending entry or emit the unknown-id error; on a
match, record completion and deliver the result. -/
def handleActionResultMsg (s : CMState) (result : ExecutionResult) : CMState × List Event :=
  if s.completedActionIds.contains result.id then (s, [])
  else
    let (cleared, s1) := removePendingAction s result.id
    if !cleared then
      (s1, [.onError (clientError ("Unknown ACTION_RESULT id: " ++ result.id))])
    else
      let s2 := markActionCompleted s1 result.id
      (s2, [.onActionResult result])

/-- Substring occurrence on character lists: does `needle` occur as a
contiguous run of `hay`? -/
def charListIncludes (needle : List Char) : List Char → Bool
  | [] => needle.isEmpty
  | c :: rest => needle.isPrefixOf (c :: rest) || charListIncludes needle rest

/-- `.includes(needle)` on JS strings. -/
def strIncludes (hay needle : String) : Bool :=
  charListIncludes needle.data hay.data

/-- `isAuthError(codeOrMessage)`: lowercase and test the three
substrings. -/
def isAuthError (codeOrMessage : String) : Bool :=
  let normalized := jsToLower codeOrMessage
  strIncludes normalized "auth" || strIncludes normalized "unauthorized"
    || strIncludes normalized "not authorized"

/-- The raw-code resolution of the `ERROR` branch of
`handleSocketMessage`: `payload.code ?? code ?? payload.message ??
message ?? ""`, each argument already narrowed to a string or absent. -/
def resolveRawServerCode
    (payloadCode directCode payloadMessage directMessage : Option String) : String :=
  (payloadCode <|> directCode <|> payloadMessage <|> directMessage).getD ""

/-- The `ERROR` branch of `handleSocketMessage`: resolve the raw code,
map it, and route auth-like codes to `onAuthFailure` and everything
else to `onError`. -/
def handleErrorFrame (s : CMState)
    (payloadCode directCode payloadMessage directMessage : Option String) :
    CMState × List Event :=
  let rawServerCode := resolveRawServerCode payloadCode directCode payloadMessage directMessage
  let mappedServerError := mapServerError rawServerCode
  if isAuthError mappedServerError.code then (s, [.onAuthFailure])
  else (s, [.onError mappedServerError])

/-! ## Theorems -/

/-- §4.E transition table as written in the spec: the allowed
non-self targets of each state. -/
def specAllowedTargets : ConnectionState → List ConnectionState
  | .DISCONNECTED => [.CONNECTING, .ERROR]
  | .CONNECTING => [.CONNECTED, .RECONNECTING, .DISCONNECTED, .ERROR]
  | .CONNECTED => [.RECONNECTING, .DISCONNECTED, .ERROR]
  | .RECONNECTING => [.RECONNECTING, .CONNECTED, .DISCONNECTED, .ERROR]
  | .ERROR => [.CONNECTING, .RECONNECTING, .DISCONNECTED]

theorem isValidStateTransition_eq_spec (a b : ConnectionState) :
    isValidStateTransition a b
      = (decide (a = b) || (specAllowedTargets a).contains b) := by
  cases a <;> cases b <;> rfl

theorem isValidStateTransition_to_error (a : ConnectionState) :
    isValidStateTransition a .ERROR = true := by
  cases a <;> rfl

theorem isValidStateTransition_to_disconnected (a : ConnectionState) :
    isValidStateTransition a .DISCONNECTED = true := by
  cases a <;> rfl

theorem setState_to_error (s : CMState) :
    setState s .ERROR
      = ({ s with state := .ERROR }, [.onStateChange .ERROR s.reconnectAttempt]) := by
  simp [setState, isValidStateTransition_to_error]

theorem setState_to_disconnected (s : CMState) :
    setState s .DISCONNECTED
      = ({ s with state := .DISCONNECTED },
         [.onStateChange .DISCONNECTED s.reconnectAttempt]) := by
  simp [setState, isValidStateTransition_to_disconnected]

/-- C1. The guard accepts exactly the §4.E table (self-transitions plus
the listed targets); a rejected `setState` leaves the state field
unchanged and emits only the `CLIENT_ERROR`
"Illegal state transition: <from> -> <to>", and an accepted one stores
the new state and notifies `onStateChange` with the new state and the
current reconnect attempt. -/
theorem c1_state_machine_table (s : CMState) (next : ConnectionState) :
    (isValidStateTransition s.state next
      = (decide (s.state = next) || (specAllowedTargets s.state).contains next))
    ∧ (isValidStateTransition s.state next = true →
        setState s next
          = ({ s with state := next }, [.onStateChange next s.reconnectAttempt]))
    ∧ (isValidStateTransition s.state next = false →
        setState s next
          = (s, [.onError (clientError
              ("Illegal state transition: " ++ s.state.name ++ " -> " ++ next.name))])) := by
  refine ⟨isValidStateTransition_eq_spec s.state next, ?_, ?_⟩
  · intro h
    simp [setState, h]
  · intro h
    simp [setState, h]

theorem c1_state_machine_table_witness :
    (setState { state := .DISCONNECTED } .CONNECTING
      = ({ state := .CONNECTING }, [.onStateChange .CONNECTING 0]))
    ∧ (setState { state := .DISCONNECTED } .CONNECTED
      = ({ state := .DISCONNECTED },
         [.onError (clientError "Illegal state transition: DISCONNECTED -> CONNECTED")])) :=
  ⟨(c1_state_machine_table { state := .DISCONNECTED } .CONNECTING).2.1 (by decide),
   (c1_state_machine_table { state := .DISCONNECTED } .CONNECTED).2.2 (by decide)⟩

/-- Counterexample for C5: an `ERROR` frame whose resolved code is the
unknown string "SOME_NEW_CODE" is delivered with code
`"SOME_NEW_CODE"` itself — not `UNKNOWN_SERVER_ERROR` — together with
the fallback message. -/
theorem c5_counterexample_unknown_code_kept :
    (handleErrorFrame {} (some "SOME_NEW_CODE") none none none).2
      = [.onError { code := "SOME_NEW_CODE", message := "Unexpected desktop error." }]
    ∧ "SOME_NEW_CODE" ≠ "UNKNOWN_SERVER_ERROR" := by
  constructor
  · rfl
  · decide

/-- C5 (amended). The raw code of an `ERROR` frame is resolved by the
priority `payload.code` → top-level `code` → `payload.message` →
top-level `message` → empty string; the resolved string is trimmed and
uppercased; the four known codes map to their fixed messages; every
other resolved string maps to the fallback message
"Unexpected desktop error." with the normalized string itself as the
code when it is non-empty, and with code `UNKNOWN_SERVER_ERROR` only
when the resolved string normalizes to the empty string. -/
theorem c5_error_code_resolution :
    (∀ (c : String) (dc pm dm : Option String),
        resolveRawServerCode (some c) dc pm dm = c)
    ∧ (∀ (c : String) (pm dm : Option String),
        resolveRawServerCode none (some c) pm dm = c)
    ∧ (∀ (c : String) (dm : Option String),
        resolveRawServerCode none none (some c) dm = c)
    ∧ (∀ c : String, resolveRawServerCode none none none (some c) = c)
    ∧ resolveRawServerCode none none none none = ""
    ∧ (∀ raw : String,
        mapServerError raw =
          { code := if jsLength (jsToUpper (jsTrim raw)) > 0 then jsToUpper (jsTrim raw)
                    else "UNKNOWN_SERVER_ERROR",
            message :=
              if jsToUpper (jsTrim raw) = "MAX_STEPS_EXCEEDED" then "This macro is too large."
              else if jsToUpper (jsTrim raw) = "MAX_TEXT_LENGTH_EXCEEDED" then
                "Text input exceeds allowed size."
              else if jsToUpper (jsTrim raw) = "COMMAND_EXECUTION_DISABLED" then
                "Terminal commands are disabled on the desktop."
              else if jsToUpper (jsTrim raw) = "DEVICE_NOT_AUTHORIZED" then
                "This device is not authorized. Please re-pair."
              else "Unexpected desktop error." }) := by
  refine ⟨fun c dc pm dm => rfl, fun c pm dm => rfl, fun c dm => rfl, fun c => rfl, rfl, ?_⟩
  intro raw
  simp only [mapServerError, serverErrorMessageTable, FALLBACK_MESSAGE]
  split_ifs <;> rfl

/-- C6. An inbound `ERROR` frame is routed on its resolved-and-mapped
code: when the lowercased code contains "auth", "unauthorized" or
"not authorized" the engine invokes exactly `onAuthFailure`; otherwise
it invokes exactly `onError` with the mapped payload. -/
theorem c6_auth_error_routing
    (s : CMState) (payloadCode directCode payloadMessage directMessage : Option String) :
    handleErrorFrame s payloadCode directCode payloadMessage directMessage
      = (s,
         if strIncludes (jsToLower (mapServerError (resolveRawServerCode
              payloadCode directCode payloadMessage directMessage)).code) "auth"
            || strIncludes (jsToLower (mapServerError (resolveRawServerCode
                 payloadCode directCode payloadMessage directMessage)).code)
                 "unauthorized"
            || strIncludes (jsToLower (mapServerError (resolveRawServerCode
                 payloadCode directCode payloadMessage directMessage)).code)
                 "not authorized"
         then [.onAuthFailure]
         else [.onError (mapServerError (resolveRawServerCode
                payloadCode directCode payloadMessage directMessage))]) := by
  simp only [handleErrorFrame, isAuthError]
  split <;> rfl

/-- C10. `connect` on an input that trims to the empty string performs
exactly the `CLIENT_ERROR` "IP address is required." and the (always
accepted) transition to `ERROR`, leaving every other field — target
URL, attempt counter, suspension flag, pending actions, timers —
untouched; a non-empty `connect` by contrast resets the attempt
counter, clears suspension, cancels the reconnect timer and clears
pending actions. -/
theorem c10_empty_connect_is_pure_error (s : CMState) (rawUrl : String) :
    (jsLength (jsTrim rawUrl) = 0 →
      connect s rawUrl
        = ({ s with state := .ERROR },
           [.onError (clientError "IP address is required."),
            .onStateChange .ERROR s.reconnectAttempt]))
    ∧ (jsLength (jsTrim rawUrl) ≠ 0 →
        (connect s rawUrl).1.reconnectAttempt = 0
        ∧ (connect s rawUrl).1.reconnectSuspended = false
        ∧ (connect s rawUrl).1.reconnectTimer = none
        ∧ (connect s rawUrl).1.pendingActions = []
        ∧ (connect s rawUrl).1.targetUrl = some (toWsUrl (jsTrim rawUrl))) := by
  constructor
  · intro h
    simp [connect, h, setState_to_error]
  · intro h
    simp only [connect, h, if_neg h]
    simp only [openSocket, clearPendingActions, clearReconnectTimer]
    split <;> rename_i heq
    · simp at heq
    · simp only [setState]
      split <;> simp

theorem c10_empty_connect_is_pure_error_witness :
    connect { state := .CONNECTED, reconnectAttempt := 4, heartbeatTimer := true,
              targetUrl := some "ws://old", pendingActions := ["1-1"] } "  "
      = ({ state := .ERROR, reconnectAttempt := 4, heartbeatTimer := true,
           targetUrl := some "ws://old", pendingActions := ["1-1"] },
         [.onError (clientError "IP address is required."),
          .onStateChange .ERROR 4]) :=
  (c10_empty_connect_is_pure_error
    { state := .CONNECTED, reconnectAttempt := 4, heartbeatTimer := true,
      targetUrl := some "ws://old", pendingActions := ["1-1"] } "  ").1 (by decide)

/-- Witness states for concrete instantiations. -/
def stLowAttempt : CMState :=
  { state := .CONNECTED, targetUrl := some "ws://h", reconnectAttempt := 4 }

def stCapAttempt : CMState :=
  { state := .RECONNECTING, targetUrl := some "ws://h", reconnectAttempt := 10 }

def stHeartbeatLive : CMState :=
  { state := .CONNECTED, targetUrl := some "ws://h", heartbeatTimer := true,
    lastHeartbeat := some 0 }

def stMidReconnect : CMState :=
  { state := .RECONNECTING, targetUrl := some "ws://old", reconnectAttempt := 7 }

/-- C4. With a remembered target URL and no suspension: below the
10-attempt cap, `scheduleReconnect` increments the attempt counter and
arms a single-shot timer with delay exactly
`min(1000 * 2^(attempt-1), 10000)` ms of the incremented attempt --
the sequence 1 s, 2 s, 4 s, 8 s then 10 s for attempts 5 through 10 --
and at the cap it emits "Reconnect failed after 10 attempts.",
transitions to `ERROR`, leaves the attempt counter alone and arms no
timer, so no 11th attempt can occur. -/
theorem c4_reconnect_backoff (s : CMState) (u : String)
    (hurl : s.targetUrl = some u) (hsus : s.reconnectSuspended = false) :
    (s.reconnectAttempt < MAX_RECONNECT_ATTEMPTS →
        (scheduleReconnect s).1.reconnectAttempt = s.reconnectAttempt + 1
        ∧ (scheduleReconnect s).1.reconnectTimer
            = some (min (1000 * 2 ^ s.reconnectAttempt) MAX_RECONNECT_DELAY_MS)
        ∧ (scheduleReconnect s).2.getLast?
            = some (.armReconnectTimer
                (min (1000 * 2 ^ s.reconnectAttempt) MAX_RECONNECT_DELAY_MS)))
    ∧ (MAX_RECONNECT_ATTEMPTS ≤ s.reconnectAttempt →
        (scheduleReconnect s).1.state = .ERROR
        ∧ (scheduleReconnect s).1.reconnectAttempt = s.reconnectAttempt
        ∧ (scheduleReconnect s).1.reconnectTimer = s.reconnectTimer
        ∧ (scheduleReconnect s).2
            = [.onError (clientError "Reconnect failed after 10 attempts."),
               .onStateChange .ERROR s.reconnectAttempt])
    ∧ ((List.range 10).map (fun k => min (1000 * 2 ^ k) MAX_RECONNECT_DELAY_MS)
        = [1000, 2000, 4000, 8000, 10000, 10000, 10000, 10000, 10000, 10000]) := by
  have hbail : ¬ ((decide (s.targetUrl = none) || s.reconnectSuspended) = true) := by
    simp [hurl, hsus]
  refine ⟨?_, ?_, by decide⟩
  · intro h
    have hnot : ¬ s.reconnectAttempt ≥ MAX_RECONNECT_ATTEMPTS := Nat.not_le.2 h
    unfold scheduleReconnect
    rw [if_neg hbail, if_neg hnot]
    simp only [clearReconnectTimer, setState, Nat.add_sub_cancel]
    split <;> simp [List.getLast?_concat]
  · intro h
    have hge : s.reconnectAttempt ≥ MAX_RECONNECT_ATTEMPTS := h
    unfold scheduleReconnect
    rw [if_neg hbail, if_pos hge, setState_to_error]
    exact ⟨rfl, rfl, rfl, rfl⟩

theorem c4_reconnect_backoff_witness :
    (scheduleReconnect stLowAttempt).1.reconnectTimer = some 10000
    ∧ (scheduleReconnect stCapAttempt).1.state = .ERROR :=
  ⟨((c4_reconnect_backoff stLowAttempt "ws://h" rfl rfl).1 (by decide)).2.1,
   ((c4_reconnect_backoff stCapAttempt "ws://h" rfl rfl).2.1 (by decide)).1⟩

/-- C3. When the heartbeat check fires with liveness stale by more than
15000 ms, the emitted trace starts with the `CLIENT_ERROR`
"Heartbeat timeout. Reconnecting.", followed immediately by the
transport close with code 4000 / reason "Heartbeat timeout"; any
`RECONNECTING` state-change notification comes strictly later, and
everything after those two effects is exactly the reconnect
scheduler's output. -/
theorem c3_heartbeat_staleness_order (s : CMState) (now lastHb : Int)
    (hlh : s.lastHeartbeat = some lastHb)
    (hstale : now - lastHb > HEARTBEAT_TIMEOUT_MS) :
    ((heartbeatTick s now).2.head?
        = some (.onError (clientError "Heartbeat timeout. Reconnecting.")))
    ∧ ((heartbeatTick s now).2.get? 1
        = some (.socketClose (some 4000) (some "Heartbeat timeout")))
    ∧ (∀ (k a : Nat),
        (heartbeatTick s now).2.get? k = some (.onStateChange .RECONNECTING a) → 2 ≤ k)
    ∧ ((heartbeatTick s now).2.drop 2 = (scheduleReconnect (clearHeartbeatTimer s)).2) := by
  simp only [heartbeatTick, hlh]
  rw [if_pos hstale]
  refine ⟨rfl, rfl, ?_, rfl⟩
  intro k a hk
  match k with
  | 0 => simp at hk
  | 1 => simp at hk
  | Nat.succ (Nat.succ m) => omega

theorem c3_heartbeat_staleness_order_witness :
    ((heartbeatTick stHeartbeatLive 15001).2.head?
      = some (.onError (clientError "Heartbeat timeout. Reconnecting.")))
    ∧ ((heartbeatTick stHeartbeatLive 15001).2.get? 1
      = some (.socketClose (some 4000) (some "Heartbeat timeout"))) :=
  ⟨(c3_heartbeat_staleness_order stHeartbeatLive 15001 0 rfl (by decide)).1,
   (c3_heartbeat_staleness_order stHeartbeatLive 15001 0 rfl (by decide)).2.1⟩

/-- `disconnect` in closed form: it always reaches `DISCONNECTED`
(that transition is accepted from every state), clears all timers and
pending actions, suspends reconnects and forgets the target URL. -/
theorem disconnect_eq (s : CMState) :
    disconnect s
      = ({ s with
            reconnectSuspended := true, reconnectTimer := none,
            heartbeatTimer := false, pendingActions := [], targetUrl := none,
            socketOpen := false, state := .DISCONNECTED },
         [.socketClose none none, .onStateChange .DISCONNECTED s.reconnectAttempt]) := by
  simp [disconnect, clearPendingActions, clearHeartbeatTimer, clearReconnectTimer,
    setState_to_disconnected]

/-- Counterexample for C9: from the reachable state produced by
`connect("192.168.1.20:8080")` followed by a transport close (one
reconnect scheduled, attempt = 1), the round trip `connect("");
disconnect()` leaves the reconnect attempt at 1, not 0: the empty
`connect` rejects the input before reaching the counter reset and
`disconnect` never touches the counter. -/
theorem c9_counterexample_attempt_not_reset :
    (disconnect (connect
        (handleSocketDisconnected (connect {} "192.168.1.20:8080").1).1 "").1).1.reconnectAttempt
      = 1
    ∧ (1 : Nat) ≠ 0 := by
  constructor
  · rfl
  · decide

/-- C9 (amended). For every engine state and input `x`, the sequence
`connect(x); disconnect()` leaves the state `DISCONNECTED` with no
live reconnect timer, heartbeat timer, or pending-action timers; the
reconnect attempt is 0 whenever `x` trims to a non-empty string, and
keeps its prior value when `x` trims to the empty string (the empty
`connect` is rejected before the counter reset). -/
theorem c9_connect_disconnect_roundtrip (s : CMState) (x : String) :
    ((disconnect (connect s x).1).1.state = .DISCONNECTED)
    ∧ ((disconnect (connect s x).1).1.reconnectTimer = none)
    ∧ ((disconnect (connect s x).1).1.heartbeatTimer = false)
    ∧ ((disconnect (connect s x).1).1.pendingActions = [])
    ∧ (jsLength (jsTrim x) ≠ 0 → (disconnect (connect s x).1).1.reconnectAttempt = 0)
    ∧ (jsLength (jsTrim x) = 0 →
        (disconnect (connect s x).1).1.reconnectAttempt = s.reconnectAttempt) := by
  rw [disconnect_eq]
  refine ⟨rfl, rfl, rfl, rfl, ?_, ?_⟩
  · intro h
    show (connect s x).1.reconnectAttempt = 0
    simp only [connect, if_neg h, openSocket, clearPendingActions, clearReconnectTimer,
      setState]
    split <;> rfl
  · intro h
    show (connect s x).1.reconnectAttempt = s.reconnectAttempt
    simp only [connect, if_pos h, setState_to_error]

theorem c9_connect_disconnect_roundtrip_witness :
    ((disconnect (connect stMidReconnect "192.168.1.20:8080").1).1.state = .DISCONNECTED)
    ∧ ((disconnect (connect stMidReconnect "192.168.1.20:8080").1).1.reconnectAttempt = 0) :=
  ⟨(c9_connect_disconnect_roundtrip stMidReconnect "192.168.1.20:8080").1,
   (c9_connect_disconnect_roundtrip stMidReconnect "192.168.1.20:8080").2.2.2.2.1
     (by decide)⟩

theorem findOversizedText_of_all_small (steps : List Step)
    (h : ∀ v, Step.text v ∈ steps → jsLength v ≤ MAX_TEXT_STEP_LENGTH) :
    findOversizedText steps = none := by
  induction steps with
  | nil => rfl
  | cons head rest ih =>
      have hrest : ∀ v, Step.text v ∈ rest → jsLength v ≤ MAX_TEXT_STEP_LENGTH :=
        fun v hv => h v (List.mem_cons_of_mem _ hv)
      cases head with
      | text v =>
          have hv : jsLength v ≤ MAX_TEXT_STEP_LENGTH := h v (List.mem_cons_self _ _)
          simp only [findOversizedText, if_neg (Nat.not_lt.2 hv)]
          exact ih hrest
      | shortcut keys => exact ih hrest
      | delay d => exact ih hrest
      | key k => exact ih hrest
      | command c => exact ih hrest

theorem findOversizedText_of_member (steps : List Step) (v : String)
    (hmem : Step.text v ∈ steps) (hbig : jsLength v > MAX_TEXT_STEP_LENGTH) :
    findOversizedText steps = some (mapServerError "MAX_TEXT_LENGTH_EXCEEDED") := by
  induction steps with
  | nil => cases hmem
  | cons head rest ih =>
      cases head with
      | text w =>
          by_cases hw : jsLength w > MAX_TEXT_STEP_LENGTH
          · simp only [findOversizedText, if_pos hw]
          · simp only [findOversizedText, if_neg hw]
            rcases List.mem_cons.1 hmem with heq | hin
            · cases heq
              exact absurd hbig hw
            · exact ih hin
      | shortcut keys =>
          rcases List.mem_cons.1 hmem with heq | hin
          · cases heq
          · exact ih hin
      | delay d =>
          rcases List.mem_cons.1 hmem with heq | hin
          · cases heq
          · exact ih hin
      | key k =>
          rcases List.mem_cons.1 hmem with heq | hin
          · cases heq
          · exact ih hin
      | command c =>
          rcases List.mem_cons.1 hmem with heq | hin
          · cases heq
          · exact ih hin

/-- C8. The validator enforces exactly the configured bounds: a steps
list longer than 50 (in particular of length 51) is rejected with
`MAX_STEPS_EXCEEDED`; one of length 50 or less never is — it passes
entirely when all its text steps are within 1000 characters, and is
rejected with `MAX_TEXT_LENGTH_EXCEEDED` when it holds a text step of
length 1001; a delay step with duration 0 is accepted while one with a
non-finite (such as `Infinity`) or negative duration is rejected. -/
theorem c8_validator_bounds :
    (∀ steps : List Step, MAX_ACTION_STEPS < steps.length →
        validateLocalActionConstraints steps = some (mapServerError "MAX_STEPS_EXCEEDED"))
    ∧ (∀ steps : List Step, steps.length ≤ MAX_ACTION_STEPS →
        (∀ v, Step.text v ∈ steps → jsLength v ≤ MAX_TEXT_STEP_LENGTH) →
        validateLocalActionConstraints steps = none)
    ∧ (∀ (steps : List Step) (v : String), steps.length ≤ MAX_ACTION_STEPS →
        Step.text v ∈ steps → jsLength v = 1001 →
        validateLocalActionConstraints steps
          = some (mapServerError "MAX_TEXT_LENGTH_EXCEEDED"))
    ∧ (∀ i : Nat, validateStep (.delay (.finite 0)) i = none)
    ∧ (∀ (i : Nat) (d : JSNum), d.isFinite = false ∨ d.isNeg = true →
        validateStep (.delay d) i
          = some ("Step " ++ toString i
              ++ " (delay) must include non-negative numeric field \"duration\".")) := by
  refine ⟨?_, ?_, ?_, ?_, ?_⟩
  · intro steps h
    simp only [validateLocalActionConstraints, if_pos h]
  · intro steps hlen hsmall
    simp only [validateLocalActionConstraints, if_neg (Nat.not_lt.2 hlen)]
    exact findOversizedText_of_all_small steps hsmall
  · intro steps v hlen hmem hv
    simp only [validateLocalActionConstraints, if_neg (Nat.not_lt.2 hlen)]
    exact findOversizedText_of_member steps v hmem (by rw [hv]; decide)
  · intro i
    rfl
  · intro i d hd
    have : (!d.isFinite || d.isNeg) = true := by
      rcases hd with h | h <;> simp [h]
    simp only [validateStep, if_pos this]

/-- A 1001-character text value for the C8 boundary witness. -/
def oversizedText : String := String.mk (List.replicate 1001 'a')

/-- A 1000-character text value for the C8 boundary witness. -/
def maximalText : String := String.mk (List.replicate 1000 'a')

theorem c8_validator_bounds_witness :
    (validateLocalActionConstraints (List.replicate 51 (Step.key "a"))
        = some (mapServerError "MAX_STEPS_EXCEEDED"))
    ∧ (validateLocalActionConstraints [Step.text maximalText] = none)
    ∧ (validateLocalActionConstraints [Step.text oversizedText]
        = some (mapServerError "MAX_TEXT_LENGTH_EXCEEDED"))
    ∧ (validateStep (.delay (.finite 0)) 0 = none)
    ∧ (validateStep (.delay .infinity) 0
        = some "Step 0 (delay) must include non-negative numeric field \"duration\".") :=
  ⟨c8_validator_bounds.1 (List.replicate 51 (Step.key "a"))
      (by rw [List.length_replicate]; decide),
   c8_validator_bounds.2.1 [Step.text maximalText] (by decide)
      (by
        intro v hv
        simp only [List.mem_singleton, Step.text.injEq] at hv
        subst hv
        show (List.replicate 1000 'a').length ≤ MAX_TEXT_STEP_LENGTH
        rw [List.length_replicate]
        decide),
   c8_validator_bounds.2.2.1 [Step.text oversizedText] oversizedText
      (by decide) (by simp)
      (by
        show (List.replicate 1001 'a').length = 1001
        rw [List.length_replicate]),
   c8_validator_bounds.2.2.2.1 0,
   c8_validator_bounds.2.2.2.2 0 .infinity (Or.inl rfl)⟩

/-- C7. `sendAction` mints the id `<now>-<nonce>` with a nonce that
strictly increases on every call (also on failed ones); a validation
failure emits the corresponding error payload and returns null; a
transport-send failure emits the `CLIENT_ERROR`
"WebSocket is not connected." and returns null with no pending entry
inserted; a successful send inserts the pending entry — the live
8-second timeout — and returns the minted id. -/
theorem c7_sendAction_contract (s : CMState) (now : Int) (action : Step) :
    ((sendAction s now action).2.1.actionNonce = s.actionNonce + 1)
    ∧ (∀ id, (sendAction s now action).1 = some id →
        id = toString now ++ "-" ++ toString (s.actionNonce + 1))
    ∧ (∀ err, validateLocalActionConstraints [action] = some err →
        (sendAction s now action).1 = none
        ∧ (sendAction s now action).2.2 = [.onError err]
        ∧ (sendAction s now action).2.1.pendingActions = s.pendingActions)
    ∧ (∀ verr, validateLocalActionConstraints [action] = none →
        validateExecuteActionPayload (toString now ++ "-" ++ toString (s.actionNonce + 1))
          [action] = some verr →
        (sendAction s now action).1 = none
        ∧ ((sendAction s now action).2.2.getLast?
            = some (.onError (clientError ("Invalid EXECUTE_ACTION payload: " ++ verr))))
        ∧ (sendAction s now action).2.1.pendingActions = s.pendingActions)
    ∧ (validateLocalActionConstraints [action] = none →
        validateExecuteActionPayload (toString now ++ "-" ++ toString (s.actionNonce + 1))
          [action] = none →
        s.socketOpen = false →
        (sendAction s now action).1 = none
        ∧ ((sendAction s now action).2.2.getLast?
            = some (.onError (clientError "WebSocket is not connected.")))
        ∧ (sendAction s now action).2.1.pendingActions = s.pendingActions)
    ∧ (validateLocalActionConstraints [action] = none →
        validateExecuteActionPayload (toString now ++ "-" ++ toString (s.actionNonce + 1))
          [action] = none →
        s.socketOpen = true →
        (sendAction s now action).1
          = some (toString now ++ "-" ++ toString (s.actionNonce + 1))
        ∧ (toString now ++ "-" ++ toString (s.actionNonce + 1))
            ∈ (sendAction s now action).2.1.pendingActions) := by
  simp only [sendAction, buildActionId, sendExecuteAction]
  refine ⟨?_, ?_, ?_, ?_, ?_, ?_⟩
  · cases hlocal : validateLocalActionConstraints [action] with
    | some err => simp [hlocal]
    | none =>
        simp only [hlocal]
        cases hpayload : validateExecuteActionPayload
            (toString now ++ "-" ++ toString (s.actionNonce + 1)) [action] with
        | some verr => simp [hpayload]
        | none =>
            simp only [hpayload]
            cases hopen : s.socketOpen <;> simp [hopen]
  · intro id hid
    cases hlocal : validateLocalActionConstraints [action] with
    | some err => simp [hlocal] at hid
    | none =>
        simp only [hlocal] at hid
        cases hpayload : validateExecuteActionPayload
            (toString now ++ "-" ++ toString (s.actionNonce + 1)) [action] with
        | some verr => simp [hpayload] at hid
        | none =>
            simp only [hpayload] at hid
            cases hopen : s.socketOpen <;> simp [hopen] at hid
            exact hid.symm
  · intro err hlocal
    simp [hlocal]
  · intro verr hlocal hpayload
    simp [hlocal, hpayload, List.getLast?_concat]
  · intro hlocal hpayload hopen
    simp [hlocal, hpayload, hopen, List.getLast?_concat]
  · intro hlocal hpayload hopen
    simp only [hlocal, hpayload, hopen, if_true]
    constructor
    · simp
    · split_ifs with h
      · exact List.mem_of_elem_eq_true h
      · simp

theorem c7_sendAction_contract_witness :
    ((sendAction { socketOpen := true } 7 (.key "a")).1 = some "7-1")
    ∧ "7-1" ∈ (sendAction { socketOpen := true } 7 (.key "a")).2.1.pendingActions :=
  (c7_sendAction_contract { socketOpen := true } 7 (.key "a")).2.2.2.2.2
    (by decide) (by decide) rfl

/-! ### C2: at-most-once delivery of action outcomes

The two engine callbacks that can deliver an outcome for an action id
are the `ACTION_RESULT` handler and the 8-second timeout callback; a
trace interleaving them in any order is modelled by folding `actStep`
over a list of `ActEvent`s. -/

/-- An inbound occurrence relevant to action outcomes: a server
`ACTION_RESULT` arriving, or a pending action's 8 s timer firing. -/
inductive ActEvent where
  | resultArrives (result : ExecutionResult)
  | timerFires (actionId : String)
  deriving DecidableEq, Repr

/-- Dispatch one `ActEvent` to the engine function that handles it. -/
def actStep (s : CMState) : ActEvent → CMState × List Event
  | .resultArrives result => handleActionResultMsg s result
  | .timerFires actionId => actionTimeoutFire s actionId

/-- The full observable trace of a sequence of `ActEvent`s. -/
def actRun (s : CMState) : List ActEvent → List Event
  | [] => []
  | e :: rest => (actStep s e).2 ++ actRun (actStep s e).1 rest

/-- Does this event deliver an action result for id `i`? -/
def isResultFor (i : String) : Event → Bool
  | .onActionResult r => r.id == i
  | _ => false

/-- Does this event deliver an action timeout for id `i`? -/
def isTimeoutFor (i : String) : Event → Bool
  | .onActionTimeout a => a == i
  | _ => false

theorem markActionCompleted_pendingActions (s : CMState) (a : String) :
    (markActionCompleted s a).pendingActions = s.pendingActions := by
  simp only [markActionCompleted]
  split_ifs <;> (try rfl) <;> (split <;> rfl)

theorem handleActionResultMsg_completed (s : CMState) (r : ExecutionResult)
    (h : r.id ∈ s.completedActionIds) :
    handleActionResultMsg s r = (s, []) := by
  simp [handleActionResultMsg, h]

theorem handleActionResultMsg_unknown (s : CMState) (r : ExecutionResult)
    (hc : r.id ∉ s.completedActionIds)
    (hp : r.id ∉ s.pendingActions) :
    handleActionResultMsg s r
      = (s, [.onError (clientError ("Unknown ACTION_RESULT id: " ++ r.id))]) := by
  simp [handleActionResultMsg, removePendingAction, hc, hp]

theorem handleActionResultMsg_matched (s : CMState) (r : ExecutionResult)
    (hc : r.id ∉ s.completedActionIds)
    (hp : r.id ∈ s.pendingActions) :
    handleActionResultMsg s r
      = (markActionCompleted
          { s with pendingActions := s.pendingActions.filter (· ≠ r.id) } r.id,
         [.onActionResult r]) := by
  simp [handleActionResultMsg, removePendingAction, hc, hp]

theorem actionTimeoutFire_gone (s : CMState) (a : String)
    (hp : a ∉ s.pendingActions) :
    actionTimeoutFire s a = (s, []) := by
  simp [actionTimeoutFire, removePendingAction, hp]

theorem actionTimeoutFire_pending (s : CMState) (a : String)
    (hp : a ∈ s.pendingActions) :
    actionTimeoutFire s a
      = (markActionCompleted
          { s with pendingActions := s.pendingActions.filter (· ≠ a) } a,
         [.onActionTimeout a,
          .onActionResult (buildActionTimeoutResult a),
          .onError (clientError ("Action " ++ a ++ " timed out after 8 seconds."))]) := by
  simp [actionTimeoutFire, removePendingAction, hp]

theorem not_mem_filter_self (l : List String) (a : String) :
    a ∉ l.filter (· ≠ a) := by
  intro h
  have := List.of_mem_filter h
  simp at this

/-- A step never adds a pending entry: a missing id stays missing. -/
theorem actStep_pending_mono (s : CMState) (e : ActEvent) (i : String)
    (h : i ∉ s.pendingActions) : i ∉ (actStep s e).1.pendingActions := by
  cases e with
  | resultArrives r =>
      simp only [actStep]
      by_cases hc : r.id ∈ s.completedActionIds
      · rw [handleActionResultMsg_completed s r hc]
        exact h
      · by_cases hp : r.id ∈ s.pendingActions
        · rw [handleActionResultMsg_matched s r hc hp]
          simp only [markActionCompleted_pendingActions]
          intro hmem
          exact h (List.mem_of_mem_filter hmem)
        · rw [handleActionResultMsg_unknown s r hc hp]
          exact h
  | timerFires a =>
      simp only [actStep]
      by_cases hp : a ∈ s.pendingActions
      · rw [actionTimeoutFire_pending s a hp]
        simp only [markActionCompleted_pendingActions]
        intro hmem
        exact h (List.mem_of_mem_filter hmem)
      · rw [actionTimeoutFire_gone s a hp]
        exact h

/-- Any step delivers at most one result and at most one timeout for a
given id, and a delivery for `i` can only happen while `i` is pending —
and removes `i` from the pending map. -/
theorem actStep_delivery (s : CMState) (e : ActEvent) (i : String) :
    ((actStep s e).2.countP (isResultFor i) ≤ 1)
    ∧ ((actStep s e).2.countP (isTimeoutFor i) ≤ 1)
    ∧ (1 ≤ (actStep s e).2.countP (isResultFor i)
          + (actStep s e).2.countP (isTimeoutFor i) →
        i ∈ s.pendingActions ∧ i ∉ (actStep s e).1.pendingActions) := by
  cases e with
  | resultArrives r =>
      simp only [actStep]
      by_cases hc : r.id ∈ s.completedActionIds
      · rw [handleActionResultMsg_completed s r hc]
        simp
      · by_cases hp : r.id ∈ s.pendingActions
        · rw [handleActionResultMsg_matched s r hc hp]
          by_cases hri : r.id = i
          · subst hri
            simp only [markActionCompleted_pendingActions, List.countP_cons,
              List.countP_nil, isResultFor, isTimeoutFor, beq_self_eq_true, if_true]
            refine ⟨by simp, by simp, ?_⟩
            intro _
            exact ⟨hp, not_mem_filter_self _ _⟩
          · have hne : (r.id == i) = false := beq_eq_false_iff_ne.2 hri
            simp [isResultFor, isTimeoutFor, hne]
        · rw [handleActionResultMsg_unknown s r hc hp]
          simp [isResultFor, isTimeoutFor]
  | timerFires a =>
      simp only [actStep]
      by_cases hp : a ∈ s.pendingActions
      · rw [actionTimeoutFire_pending s a hp]
        by_cases hai : a = i
        · subst hai
          simp only [markActionCompleted_pendingActions, List.countP_cons,
            List.countP_nil, isResultFor, isTimeoutFor, buildActionTimeoutResult,
            beq_self_eq_true, if_true]
          refine ⟨by simp, by simp, ?_⟩
          intro _
          exact ⟨hp, not_mem_filter_self _ _⟩
        · have hne : (a == i) = false := beq_eq_false_iff_ne.2 hai
          simp [isResultFor, isTimeoutFor, buildActionTimeoutResult, hne]
      · rw [actionTimeoutFire_gone s a hp]
        simp

/-- A run started with `i` absent from the pending map delivers nothing
for `i`. -/
theorem actRun_no_delivery (events : List ActEvent) (s : CMState) (i : String)
    (h : i ∉ s.pendingActions) :
    (actRun s events).countP (isResultFor i) = 0
    ∧ (actRun s events).countP (isTimeoutFor i) = 0 := by
  induction events generalizing s with
  | nil => simp [actRun]
  | cons e rest ih =>
      have hstep := actStep_delivery s e i
      have hnone : (actStep s e).2.countP (isResultFor i) = 0
          ∧ (actStep s e).2.countP (isTimeoutFor i) = 0 := by
        by_contra hcon
        have h1 : 1 ≤ (actStep s e).2.countP (isResultFor i)
            + (actStep s e).2.countP (isTimeoutFor i) := by
          rcases Nat.eq_zero_or_pos ((actStep s e).2.countP (isResultFor i)) with h0 | h0
          · rcases Nat.eq_zero_or_pos ((actStep s e).2.countP (isTimeoutFor i)) with g0 | g0
            · exact absurd ⟨h0, g0⟩ hcon
            · omega
          · omega
        exact absurd (hstep.2.2 h1).1 h
      have hmono := actStep_pending_mono s e i h
      have hrest := ih (actStep s e).1 hmono
      constructor
      · simp only [actRun, List.countP_append, hnone.1, hrest.1]
      · simp only [actRun, List.countP_append, hnone.2, hrest.2]

/-- Over any run, the engine delivers at most one result and at most
one timeout for each id. -/
theorem actRun_at_most_once (events : List ActEvent) (s : CMState) (i : String) :
    (actRun s events).countP (isResultFor i) ≤ 1
    ∧ (actRun s events).countP (isTimeoutFor i) ≤ 1 := by
  induction events generalizing s with
  | nil => simp [actRun]
  | cons e rest ih =>
      have hstep := actStep_delivery s e i
      have hrest := ih (actStep s e).1
      by_cases hdel : 1 ≤ (actStep s e).2.countP (isResultFor i)
          + (actStep s e).2.countP (isTimeoutFor i)
      · have hout := (hstep.2.2 hdel).2
        have hnone := actRun_no_delivery rest (actStep s e).1 i hout
        constructor
        · simp only [actRun, List.countP_append, hnone.1]
          omega
        · simp only [actRun, List.countP_append, hnone.2]
          omega
      · have h0 : (actStep s e).2.countP (isResultFor i) = 0
            ∧ (actStep s e).2.countP (isTimeoutFor i) = 0 := by omega
        constructor
        · simp only [actRun, List.countP_append, h0.1]
          omega
        · simp only [actRun, List.countP_append, h0.2]
          omega

theorem mem_filter_ne (l : List String) (a i : String) (hne : i ≠ a) (hi : i ∈ l) :
    i ∈ l.filter (· ≠ a) := by
  refine List.mem_filter.2 ⟨hi, ?_⟩
  simp [hne]

/-- Adding an id to the completed membership set (JS `Set.add`) always
leaves it a member. -/
theorem mem_ids_add (ids : List String) (a : String) :
    a ∈ (if ids.contains a = true then ids else a :: ids) := by
  split_ifs with h
  · exact List.mem_of_elem_eq_true h
  · exact List.mem_cons_self _ _

/-- Completing an id whose entry is not sitting in the FIFO order (true
of every id completed for the first time) leaves it in the completed
membership set, eviction of the oldest entry included. -/
theorem markActionCompleted_mem (s : CMState) (a : String)
    (hord : a ∉ s.completedActionOrder) :
    a ∈ (markActionCompleted s a).completedActionIds := by
  rcases horder : s.completedActionOrder with _ | ⟨o, os⟩
  · have h1 : (s.completedActionOrder ++ [a]).length ≤ 500 := by
      rw [horder]
      simp
    simp only [markActionCompleted, if_pos h1]
    exact mem_ids_add _ _
  · by_cases hlen : (s.completedActionOrder ++ [a]).length ≤ 500
    · simp only [markActionCompleted, if_pos hlen]
      exact mem_ids_add _ _
    · have hne : a ≠ o := by
        rw [horder] at hord
        exact fun h => hord (h ▸ List.mem_cons_self _ _)
      rw [horder] at hlen
      simp only [List.cons_append] at hlen
      simp only [markActionCompleted, horder, List.cons_append, if_neg hlen]
      exact mem_filter_ne _ _ _ hne (mem_ids_add _ _)

/-- C2. For every action id an outcome is delivered at most once: an
`ACTION_RESULT` whose id is in the completed window is dropped with no
observer call; one whose id is neither pending nor completed emits only
the `CLIENT_ERROR` "Unknown ACTION_RESULT id: <r>"; a matched
`ACTION_RESULT` delivers the result exactly once, removes the pending
entry (cancelling its timer) and records the id as completed; and over
every interleaving of result arrivals and timer firings, `onActionResult`
and `onActionTimeout` each fire at most once per id — whichever cause
occurs first while the id is pending wins, the other side finding the
entry gone. -/
theorem c2_at_most_once_delivery (s : CMState) (r : ExecutionResult)
    (i : String) (events : List ActEvent) :
    (r.id ∈ s.completedActionIds → handleActionResultMsg s r = (s, []))
    ∧ (r.id ∉ s.completedActionIds → r.id ∉ s.pendingActions →
        handleActionResultMsg s r
          = (s, [.onError (clientError ("Unknown ACTION_RESULT id: " ++ r.id))]))
    ∧ (r.id ∉ s.completedActionIds → r.id ∈ s.pendingActions →
        r.id ∉ s.completedActionOrder →
        (handleActionResultMsg s r).2 = [.onActionResult r]
        ∧ r.id ∉ (handleActionResultMsg s r).1.pendingActions
        ∧ r.id ∈ (handleActionResultMsg s r).1.completedActionIds)
    ∧ ((actRun s events).countP (isResultFor i) ≤ 1
        ∧ (actRun s events).countP (isTimeoutFor i) ≤ 1) := by
  refine ⟨?_, ?_, ?_, actRun_at_most_once events s i⟩
  · exact handleActionResultMsg_completed s r
  · exact handleActionResultMsg_unknown s r
  · intro hc hp hord
    rw [handleActionResultMsg_matched s r hc hp]
    refine ⟨rfl, ?_, ?_⟩
    · simp only [markActionCompleted_pendingActions]
      exact not_mem_filter_self _ _
    · exact markActionCompleted_mem _ _ hord

/-- The concrete result used by the C2 witness. -/
def r71 : ExecutionResult :=
  { id := "7-1", status := "success", executionTime := 42, error := none }

theorem c2_at_most_once_delivery_witness :
    (handleActionResultMsg { completedActionIds := ["7-1"] } r71
      = ({ completedActionIds := ["7-1"] }, []))
    ∧ ((handleActionResultMsg { pendingActions := ["7-1"] } r71).2
        = [.onActionResult r71])
    ∧ r71.id ∉ (handleActionResultMsg { pendingActions := ["7-1"] } r71).1.pendingActions :=
  ⟨(c2_at_most_once_delivery { completedActionIds := ["7-1"] } r71 "7-1" []).1 (by decide),
   ((c2_at_most_once_delivery { pendingActions := ["7-1"] } r71 "7-1" []).2.2.1
      (by decide) (by decide) (by decide)).1,
   ((c2_at_most_once_delivery { pendingActions := ["7-1"] } r71 "7-1" []).2.2.1
      (by decide) (by decide) (by decide)).2.1⟩

end Tapvolt
